import Mathlib

/-!
Shallow embedding of `src/packager/app/packager_util.cc` (shaka-packager):
the key-provisioning selectors `CreateSigner`, `CreateEncryptionKeySource`
and `CreateDecryptionKeySource`.

The gflags read by the selectors become fields of a `Flags` structure.
The external collaborators (AES/RSA signer construction, file reading,
the Widevine key fetch, fixed-key and PlayReady source construction) are
modelled as oracle functions gathered in an `Env` structure, so every
theorem quantifies over their behaviour.  Side effects (file reads, fetch
calls, `LOG(ERROR)` messages) are recorded in an explicit `Effects` trace
returned alongside the function's C++ return value (a possibly-null
`unique_ptr`, modelled as `Option`).
-/

namespace PackagerUtil

/-- The gflags read by the three selectors, one field per `FLAGS_...`. -/
structure Flags where
  signer : String
  aes_signing_key : String
  aes_signing_iv : String
  rsa_signing_key_path : String
  enable_widevine_encryption : Bool
  enable_widevine_decryption : Bool
  key_server_url : String
  include_common_pssh : Bool
  content_id : String
  policy : String
  enable_fixed_key_encryption : Bool
  enable_fixed_key_decryption : Bool
  key_id : String
  key : String
  pssh : String
  iv : String
  enable_playready_encryption : Bool
  playready_key_id : String
  playready_key : String
  playready_server_url : String
  program_identifier : String
  client_cert_file : String
  client_cert_private_key_file : String
  client_cert_private_key_password : String
  ca_file : String
deriving DecidableEq

/-- A request signer, as produced by `AesRequestSigner::CreateSigner` or
`RsaRequestSigner::CreateSigner` (collaborators outside the core). -/
inductive Signer where
  | aes (name key iv : String)
  | rsa (name privateKey : String)
deriving DecidableEq

/-- The state of a `WidevineKeySource` at the moment it is returned:
constructor arguments plus the optionally attached signer. -/
structure WidevineSource where
  serverUrl : String
  includeCommonPssh : Bool
  signerObj : Option Signer
deriving DecidableEq

/-- The state of a `PlayReadyKeySource` built on the service-URL path:
constructor arguments (URL alone, or URL plus client-certificate triple)
and the CA file attached via `SetCaFile`. -/
structure PlayReadySource where
  serverUrl : String
  clientCert : Option (String × String × String)
  caFile : Option String
deriving DecidableEq

/-- A key source as returned through the `unique_ptr<KeySource>` interface.
`fixed` and `playreadyStatic` are representative values the collaborator
constructors may produce; the selectors never inspect them. -/
inductive KeySource where
  | widevine (s : WidevineSource)
  | fixed (keyId key pssh iv : String)
  | playready (p : PlayReadySource)
  | playreadyStatic (keyId key : String)
deriving DecidableEq

/-- The `Status` returned by `WidevineKeySource::FetchKeys`. -/
inductive Status where
  | ok
  | error (code : Nat) (message : String)
deriving DecidableEq

/-- `Status::ok()`. -/
def Status.isOk : Status → Bool
  | .ok => true
  | .error _ _ => false

/-- One `LOG(ERROR)` site of `packager_util.cc`, with the configuration
values the message interpolates. -/
inductive LogMsg where
  | cannotCreateAesSigner (key iv : String)
  | failedToReadFile (path : String)
  | cannotCreateRsaSigner (path : String)
  | invalidContentIdHex
  | widevineFetchFailed (status : Status)
  | playreadyCreationError
deriving DecidableEq

/-- Trace of the observable side effects of one selector call: file paths
passed to `File::ReadFileToString`, Widevine `FetchKeys` calls (source
state, decoded content id, policy), PlayReady
`FetchKeysWithProgramIdentifier` calls (program identifier and the
ignored success flag), and emitted error-log messages. -/
structure Effects where
  fileReads : List String
  widevineFetches : List (WidevineSource × List Nat × String)
  playreadyFetches : List (String × Bool)
  logs : List LogMsg
deriving DecidableEq

/-- The empty trace. -/
def Effects.nil : Effects := ⟨[], [], [], []⟩

/-- Trace concatenation, in program order. -/
def Effects.app (a b : Effects) : Effects :=
  ⟨a.fileReads ++ b.fileReads, a.widevineFetches ++ b.widevineFetches,
   a.playreadyFetches ++ b.playreadyFetches, a.logs ++ b.logs⟩

/-- The external collaborators consumed by the selectors, as oracles:
`AesRequestSigner::CreateSigner`, `File::ReadFileToString`,
`RsaRequestSigner::CreateSigner`, `WidevineKeySource::FetchKeys`,
`FixedKeySource::CreateFromHexStrings`,
`PlayReadyKeySource::CreateFromKeyAndKeyId`, and the success flag of
`PlayReadyKeySource::FetchKeysWithProgramIdentifier`. -/
structure Env where
  aesCreateSigner : String → String → String → Option Signer
  readFileToString : String → Option String
  rsaCreateSigner : String → String → Option Signer
  fetchKeys : WidevineSource → List Nat → String → Status
  fixedCreateFromHexStrings : String → String → String → String → Option KeySource
  prCreateFromKeyAndKeyId : String → String → Option KeySource
  playreadyFetchStatus : PlayReadySource → String → Bool

/-- Value of one hexadecimal digit character, case-insensitive, written
over code points: digits are 48–57, uppercase letters 65–70, lowercase
letters 97–102. -/
def hexDigitValue (c : Char) : Option Nat :=
  let n := c.toNat
  if 48 ≤ n ∧ n ≤ 57 then some (n - 48)
  else if 65 ≤ n ∧ n ≤ 70 then some (n - 55)
  else if 97 ≤ n ∧ n ≤ 102 then some (n - 87)
  else none

/-- Decode a list of characters as consecutive hex-digit pairs. -/
def hexPairsToBytes : List Char → Option (List Nat)
  | [] => some []
  | [_] => none
  | c1 :: c2 :: rest =>
    match hexDigitValue c1, hexDigitValue c2, hexPairsToBytes rest with
    | some hi, some lo, some bs => some ((hi * 16 + lo) :: bs)
    | _, _, _ => none

/-- Modelled from the spec: `base::HexStringToBytes` (repository code not
under `src/`), specified in the spec as `hexDecode(string) ->
Result<bytes, DecodeError>` failing exactly on odd length or non-hex
characters. -/
def HexStringToBytes (s : String) : Option (List Nat) :=
  hexPairsToBytes s.data

/-- `CreateSigner` of `packager_util.cc`: the AES path is tried when the
AES signing key is non-empty (its failure does not fall through), else
the RSA path reads the key file and builds an RSA signer, else no signer
is produced.  Returns the `unique_ptr` value and the effect trace. -/
def CreateSigner (env : Env) (f : Flags) : Option Signer × Effects :=
  if !f.aes_signing_key.isEmpty then
    match env.aesCreateSigner f.signer f.aes_signing_key f.aes_signing_iv with
    | none =>
      (none, ⟨[], [], [], [LogMsg.cannotCreateAesSigner f.aes_signing_key f.aes_signing_iv]⟩)
    | some s => (some s, Effects.nil)
  else if !f.rsa_signing_key_path.isEmpty then
    match env.readFileToString f.rsa_signing_key_path with
    | none =>
      (none, ⟨[f.rsa_signing_key_path], [], [], [LogMsg.failedToReadFile f.rsa_signing_key_path]⟩)
    | some rsa_private_key =>
      match env.rsaCreateSigner f.signer rsa_private_key with
      | none =>
        (none, ⟨[f.rsa_signing_key_path], [], [], [LogMsg.cannotCreateRsaSigner f.rsa_signing_key_path]⟩)
      | some s => (some s, ⟨[f.rsa_signing_key_path], [], [], []⟩)
  else (none, Effects.nil)

/-- The `WidevineKeySource` construction and signer-attachment block that
`packager_util.cc` repeats verbatim at the top of both Widevine paths:
construct the source from the server URL and the common-PSSH toggle, and
when a signer name is configured call `CreateSigner`, aborting with a
null result when it returns null, else attach the signer. -/
def widevineWithSigner (env : Env) (f : Flags) : Option WidevineSource × Effects :=
  if !f.signer.isEmpty then
    match CreateSigner env f with
    | (none, e) => (none, e)
    | (some s, e) =>
      (some ⟨f.key_server_url, f.include_common_pssh, some s⟩, e)
  else (some ⟨f.key_server_url, f.include_common_pssh, none⟩, Effects.nil)

/-- `CreateEncryptionKeySource` of `packager_util.cc`: Widevine, then
fixed-key, then PlayReady, first enabled flag wins.  On the Widevine path
a signer is attached when a signer name is configured, the content id is
hex-decoded, and `FetchKeys` is called once; on the PlayReady path the
static key pair wins over the service URL, and the program-identifier
fetch result is discarded. -/
def CreateEncryptionKeySource (env : Env) (f : Flags) : Option KeySource × Effects :=
  if f.enable_widevine_encryption then
    match widevineWithSigner env f with
    | (none, e) => (none, e)
    | (some ws, e) =>
      match HexStringToBytes f.content_id with
      | none => (none, Effects.app e ⟨[], [], [], [LogMsg.invalidContentIdHex]⟩)
      | some content_id =>
        if (env.fetchKeys ws content_id f.policy).isOk then
          (some (KeySource.widevine ws), Effects.app e ⟨[], [(ws, content_id, f.policy)], [], []⟩)
        else
          (none, Effects.app e
            ⟨[], [(ws, content_id, f.policy)], [],
             [LogMsg.widevineFetchFailed (env.fetchKeys ws content_id f.policy)]⟩)
  else if f.enable_fixed_key_encryption then
    (env.fixedCreateFromHexStrings f.key_id f.key f.pssh f.iv, Effects.nil)
  else if f.enable_playready_encryption then
    if !f.playready_key_id.isEmpty && !f.playready_key.isEmpty then
      (env.prCreateFromKeyAndKeyId f.playready_key_id f.playready_key, Effects.nil)
    else if !f.playready_server_url.isEmpty && !f.program_identifier.isEmpty then
      let p0 : PlayReadySource :=
        if !f.client_cert_file.isEmpty && !f.client_cert_private_key_file.isEmpty &&
            !f.client_cert_private_key_password.isEmpty then
          ⟨f.playready_server_url,
           some (f.client_cert_file, f.client_cert_private_key_file,
                 f.client_cert_private_key_password), none⟩
        else ⟨f.playready_server_url, none, none⟩
      let p : PlayReadySource :=
        if !f.ca_file.isEmpty then ⟨p0.serverUrl, p0.clientCert, some f.ca_file⟩ else p0
      (some (KeySource.playready p),
       ⟨[], [], [(f.program_identifier, env.playreadyFetchStatus p f.program_identifier)], []⟩)
    else (none, ⟨[], [], [], [LogMsg.playreadyCreationError]⟩)
  else (none, Effects.nil)

/-- `CreateDecryptionKeySource` of `packager_util.cc`: Widevine (same
signer logic as the encryption path, but no content-id decode and no
fetch), then fixed-key with PSSH and IV fixed to the empty string. -/
def CreateDecryptionKeySource (env : Env) (f : Flags) : Option KeySource × Effects :=
  if f.enable_widevine_decryption then
    match widevineWithSigner env f with
    | (none, e) => (none, e)
    | (some ws, e) => (some (KeySource.widevine ws), e)
  else if f.enable_fixed_key_decryption then
    (env.fixedCreateFromHexStrings f.key_id f.key "" "", Effects.nil)
  else (none, Effects.nil)

/-- True when at least two of the three encryption enable-flags are set. -/
def twoOrMoreEncFlags (f : Flags) : Bool :=
  (f.enable_widevine_encryption && f.enable_fixed_key_encryption) ||
  (f.enable_widevine_encryption && f.enable_playready_encryption) ||
  (f.enable_fixed_key_encryption && f.enable_playready_encryption)

/-- Clear every encryption enable-flag below the highest-priority one
that is set (priority: Widevine, then fixed key, then PlayReady). -/
def keepHighestEncFlag (f : Flags) : Flags :=
  if f.enable_widevine_encryption then
    { f with enable_fixed_key_encryption := false, enable_playready_encryption := false }
  else if f.enable_fixed_key_encryption then
    { f with enable_playready_encryption := false }
  else f

/-- True when no encryption enable-flag is set. -/
def noEncFlags (f : Flags) : Bool :=
  !f.enable_widevine_encryption && !f.enable_fixed_key_encryption &&
    !f.enable_playready_encryption

/-- True when no decryption enable-flag is set. -/
def noDecFlags (f : Flags) : Bool :=
  !f.enable_widevine_decryption && !f.enable_fixed_key_decryption

/-- A configuration with every flag empty or false, the gflags defaults. -/
def flags0 : Flags :=
  ⟨"", "", "", "", false, false, "", false, "", "", false, false, "", "", "", "",
   false, "", "", "", "", "", "", "", ""⟩

/-- A concrete collaborator environment in which every construction
succeeds and every fetch reports success. -/
def env0 : Env :=
  ⟨fun n k i => some (Signer.aes n k i),
   fun p => some p,
   fun n k => some (Signer.rsa n k),
   fun _ _ _ => Status.ok,
   fun kid k p i => some (KeySource.fixed kid k p i),
   fun kid k => some (KeySource.playreadyStatic kid k),
   fun _ _ => true⟩

/-- `CreateSigner` makes no fetch call, and when it returns a signer it
has logged no error. -/
theorem createSigner_trace (env : Env) (f : Flags) :
    (CreateSigner env f).2.widevineFetches = [] ∧
    (CreateSigner env f).2.playreadyFetches = [] ∧
    ((CreateSigner env f).1.isSome = true → (CreateSigner env f).2.logs = []) := by
  unfold CreateSigner
  repeat' split
  all_goals simp [Effects.nil]

/-- `CreateSigner` either returns null or logs nothing. -/
theorem createSigner_none_or_quiet (env : Env) (f : Flags) :
    (CreateSigner env f).1 = none ∨ (CreateSigner env f).2.logs = [] := by
  unfold CreateSigner
  repeat' split
  all_goals simp [Effects.nil]

/-- The shared Widevine prologue makes no fetch call, and when it
produces a source it has logged no error. -/
theorem widevineWithSigner_trace (env : Env) (f : Flags) :
    (widevineWithSigner env f).2.widevineFetches = [] ∧
    (widevineWithSigner env f).2.playreadyFetches = [] ∧
    ((widevineWithSigner env f).1.isSome = true →
      (widevineWithSigner env f).2.logs = []) := by
  unfold widevineWithSigner
  have h := createSigner_trace env f
  repeat' split
  all_goals simp_all [Effects.nil]

/-- With no encryption enable-flag set, `CreateEncryptionKeySource`
returns null with an empty trace. -/
theorem enc_noflags (env : Env) (f : Flags) (h : noEncFlags f = true) :
    CreateEncryptionKeySource env f = (none, Effects.nil) := by
  unfold noEncFlags at h
  simp only [Bool.and_eq_true, Bool.not_eq_true'] at h
  unfold CreateEncryptionKeySource
  simp [h.1.1, h.1.2, h.2]

/-- With no decryption enable-flag set, `CreateDecryptionKeySource`
returns null with an empty trace. -/
theorem dec_noflags (env : Env) (f : Flags) (h : noDecFlags f = true) :
    CreateDecryptionKeySource env f = (none, Effects.nil) := by
  unfold noDecFlags at h
  simp only [Bool.and_eq_true, Bool.not_eq_true'] at h
  unfold CreateDecryptionKeySource
  simp [h.1, h.2]

/-- `CreateEncryptionKeySource` either returns null or logs nothing. -/
theorem enc_none_or_quiet (env : Env) (f : Flags) :
    (CreateEncryptionKeySource env f).1 = none ∨
      (CreateEncryptionKeySource env f).2.logs = [] := by
  unfold CreateEncryptionKeySource
  have h := widevineWithSigner_trace env f
  repeat' split
  all_goals simp_all [Effects.nil, Effects.app]

/-- `CreateDecryptionKeySource` either returns null or logs nothing. -/
theorem dec_none_or_quiet (env : Env) (f : Flags) :
    (CreateDecryptionKeySource env f).1 = none ∨
      (CreateDecryptionKeySource env f).2.logs = [] := by
  unfold CreateDecryptionKeySource
  have h := widevineWithSigner_trace env f
  repeat' split
  all_goals simp_all [Effects.nil, Effects.app]

/-- C8: for every collaborator environment, a configuration with no
encryption enable-flag set makes `CreateEncryptionKeySource` return
successfully (empty trace, so no error log) with no key source, and a
configuration with no decryption enable-flag set makes
`CreateDecryptionKeySource` do likewise: requesting no protection is not
an error. -/
theorem c8_no_protection_is_ok_none (env : Env) (f g : Flags) :
    (noEncFlags f = true → CreateEncryptionKeySource env f = (none, Effects.nil)) ∧
    (noDecFlags g = true → CreateDecryptionKeySource env g = (none, Effects.nil)) :=
  ⟨fun h => enc_noflags env f h, fun h => dec_noflags env g h⟩

/-- C8 witness: the all-defaults configuration has no enable-flag set and
both selectors return null with an empty trace. -/
theorem c8_no_protection_is_ok_none_witness :
    (noEncFlags flags0 = true → CreateEncryptionKeySource env0 flags0 = (none, Effects.nil)) ∧
    (noDecFlags flags0 = true → CreateDecryptionKeySource env0 flags0 = (none, Effects.nil)) ∧
    noEncFlags flags0 = true ∧ noDecFlags flags0 = true :=
  ⟨(c8_no_protection_is_ok_none env0 flags0 flags0).1,
   (c8_no_protection_is_ok_none env0 flags0 flags0).2,
   by decide, by decide⟩

/-- C7: with static-key decryption enabled (and the higher-priority
Widevine decryption flag clear), `CreateDecryptionKeySource` builds the
fixed key source from the configured key id and key value with PSSH and
IV fixed to the empty string, and its outcome does not depend on the
PSSH and IV configured for encryption. -/
theorem c7_fixed_decryption_empty_pssh_iv (env : Env) (f : Flags)
    (hw : f.enable_widevine_decryption = false)
    (hx : f.enable_fixed_key_decryption = true) :
    CreateDecryptionKeySource env f =
      (env.fixedCreateFromHexStrings f.key_id f.key "" "", Effects.nil) ∧
    ∀ ps ivv : String,
      CreateDecryptionKeySource env { f with pssh := ps, iv := ivv } =
        CreateDecryptionKeySource env f := by
  constructor
  · unfold CreateDecryptionKeySource
    simp [hw, hx]
  · intro ps ivv
    unfold CreateDecryptionKeySource
    simp [hw, hx]

/-- C7 witness: key id `1234` and key `abcd` with stray encryption PSSH
and IV values; the fixed source is built with empty PSSH and IV. -/
theorem c7_fixed_decryption_empty_pssh_iv_witness :
    ({ flags0 with enable_fixed_key_decryption := true, key_id := "1234", key := "abcd",
                   pssh := "77", iv := "88" } : Flags).enable_widevine_decryption = false ∧
    ({ flags0 with enable_fixed_key_decryption := true, key_id := "1234", key := "abcd",
                   pssh := "77", iv := "88" } : Flags).enable_fixed_key_decryption = true ∧
    (CreateDecryptionKeySource env0
        { flags0 with enable_fixed_key_decryption := true, key_id := "1234", key := "abcd",
                      pssh := "77", iv := "88" } =
      (env0.fixedCreateFromHexStrings "1234" "abcd" "" "", Effects.nil) ∧
    ∀ ps ivv : String,
      CreateDecryptionKeySource env0
          { flags0 with enable_fixed_key_decryption := true, key_id := "1234", key := "abcd",
                        pssh := ps, iv := ivv } =
        CreateDecryptionKeySource env0
          { flags0 with enable_fixed_key_decryption := true, key_id := "1234", key := "abcd",
                        pssh := "77", iv := "88" }) :=
  ⟨by decide, by decide,
   c7_fixed_decryption_empty_pssh_iv env0
     { flags0 with enable_fixed_key_decryption := true, key_id := "1234", key := "abcd",
                   pssh := "77", iv := "88" } (by decide) (by decide)⟩

/-- C10: a non-empty signer name with neither AES key material nor an RSA
key-file path makes `CreateSigner` return null, and each Widevine path
then aborts with a null key source instead of proceeding unsigned. -/
theorem c10_signer_name_without_key_material (env : Env) (f : Flags)
    (hs : f.signer.isEmpty = false)
    (ha : f.aes_signing_key.isEmpty = true)
    (hr : f.rsa_signing_key_path.isEmpty = true) :
    (CreateSigner env f).1 = none ∧
    (f.enable_widevine_encryption = true →
      (CreateEncryptionKeySource env f).1 = none) ∧
    (f.enable_widevine_decryption = true →
      (CreateDecryptionKeySource env f).1 = none) := by
  have hcs : CreateSigner env f = (none, Effects.nil) := by
    unfold CreateSigner
    simp [ha, hr]
  refine ⟨by simp [hcs], ?_, ?_⟩
  · intro hw
    unfold CreateEncryptionKeySource widevineWithSigner
    simp [hw, hs, hcs]
  · intro hw
    unfold CreateDecryptionKeySource widevineWithSigner
    simp [hw, hs, hcs]

/-- C10 witness: signer name `widevine_test` with no key material, both
Widevine flags set; all three results are null. -/
theorem c10_signer_name_without_key_material_witness :
    ({ flags0 with signer := "widevine_test", enable_widevine_encryption := true,
                   enable_widevine_decryption := true } : Flags).signer.isEmpty = false ∧
    ((CreateSigner env0
        { flags0 with signer := "widevine_test", enable_widevine_encryption := true,
                      enable_widevine_decryption := true }).1 = none ∧
     (({ flags0 with signer := "widevine_test", enable_widevine_encryption := true,
                     enable_widevine_decryption := true } : Flags).enable_widevine_encryption = true →
       (CreateEncryptionKeySource env0
          { flags0 with signer := "widevine_test", enable_widevine_encryption := true,
                        enable_widevine_decryption := true }).1 = none) ∧
     (({ flags0 with signer := "widevine_test", enable_widevine_encryption := true,
                     enable_widevine_decryption := true } : Flags).enable_widevine_decryption = true →
       (CreateDecryptionKeySource env0
          { flags0 with signer := "widevine_test", enable_widevine_encryption := true,
                        enable_widevine_decryption := true }).1 = none)) :=
  ⟨by decide,
   c10_signer_name_without_key_material env0
     { flags0 with signer := "widevine_test", enable_widevine_encryption := true,
                   enable_widevine_decryption := true }
     (by decide) (by decide) (by decide)⟩

/-- C5: with a non-empty AES signing key, `CreateSigner` is decided by
the AES collaborator alone: no file read occurs, the returned pointer is
exactly the AES construction result, a construction failure logs the AES
error (and only it), and any environment agreeing on the AES constructor
— whatever its file-reading and RSA behaviour — produces the identical
outcome, so the RSA path is never tried. -/
theorem c5_aes_path_is_exclusive (env env2 : Env) (f : Flags)
    (ha : f.aes_signing_key.isEmpty = false)
    (henv : env2.aesCreateSigner = env.aesCreateSigner) :
    (CreateSigner env f).2.fileReads = [] ∧
    (CreateSigner env f).1 =
      env.aesCreateSigner f.signer f.aes_signing_key f.aes_signing_iv ∧
    (env.aesCreateSigner f.signer f.aes_signing_key f.aes_signing_iv = none →
      (CreateSigner env f).2.logs =
        [LogMsg.cannotCreateAesSigner f.aes_signing_key f.aes_signing_iv]) ∧
    CreateSigner env2 f = CreateSigner env f := by
  unfold CreateSigner
  simp only [ha, Bool.not_false, if_true, henv]
  cases hc : env.aesCreateSigner f.signer f.aes_signing_key f.aes_signing_iv <;>
    simp [Effects.nil]

/-- Configuration for the C5 witness: a non-empty AES signing key of
`6F` bytes and an IV of `AA` bytes, as in the spec's example. -/
def flagsC5 : Flags :=
  { flags0 with
      signer := "widevine_test",
      aes_signing_key := "6F6F6F6F",
      aes_signing_iv := "AAAA" }

/-- C5 witness: on that configuration, in an environment where every
collaborator succeeds, the signer is the AES result and no file read
happens. -/
theorem c5_aes_path_is_exclusive_witness :
    flagsC5.aes_signing_key.isEmpty = false ∧
    ((CreateSigner env0 flagsC5).2.fileReads = [] ∧
     (CreateSigner env0 flagsC5).1 =
       env0.aesCreateSigner flagsC5.signer flagsC5.aes_signing_key flagsC5.aes_signing_iv ∧
     (env0.aesCreateSigner flagsC5.signer flagsC5.aes_signing_key flagsC5.aes_signing_iv = none →
       (CreateSigner env0 flagsC5).2.logs =
         [LogMsg.cannotCreateAesSigner flagsC5.aes_signing_key flagsC5.aes_signing_iv]) ∧
     CreateSigner env0 flagsC5 = CreateSigner env0 flagsC5) :=
  ⟨by decide, c5_aes_path_is_exclusive env0 env0 flagsC5 (by decide) rfl⟩

/-- C6: with PlayReady encryption selected (higher-priority flags clear)
but neither the static key pair nor the service URL plus program
identifier fully configured, `CreateEncryptionKeySource` returns null
and logs the PlayReady creation error. -/
theorem c6_incomplete_playready_config_fails (env : Env) (f : Flags)
    (hw : f.enable_widevine_encryption = false)
    (hx : f.enable_fixed_key_encryption = false)
    (hp : f.enable_playready_encryption = true)
    (hna : (!f.playready_key_id.isEmpty && !f.playready_key.isEmpty) = false)
    (hnb : (!f.playready_server_url.isEmpty && !f.program_identifier.isEmpty) = false) :
    (CreateEncryptionKeySource env f).1 = none ∧
    (CreateEncryptionKeySource env f).2.logs = [LogMsg.playreadyCreationError] := by
  unfold CreateEncryptionKeySource
  simp [hw, hx, hp, hna, hnb]

/-- Configuration for the C6 witness: PlayReady enabled with only a
service URL, no program identifier and no static key pair. -/
def flagsC6 : Flags :=
  { flags0 with enable_playready_encryption := true,
                playready_server_url := "https://playready.example.com" }

/-- C6 witness: that configuration yields a null source and the
PlayReady creation-error log. -/
theorem c6_incomplete_playready_config_fails_witness :
    flagsC6.enable_playready_encryption = true ∧
    (!flagsC6.playready_key_id.isEmpty && !flagsC6.playready_key.isEmpty) = false ∧
    (!flagsC6.playready_server_url.isEmpty && !flagsC6.program_identifier.isEmpty) = false ∧
    ((CreateEncryptionKeySource env0 flagsC6).1 = none ∧
     (CreateEncryptionKeySource env0 flagsC6).2.logs = [LogMsg.playreadyCreationError]) :=
  ⟨by decide, by decide, by decide,
   c6_incomplete_playready_config_fails env0 flagsC6
     (by decide) (by decide) (by decide) (by decide) (by decide)⟩

/-- C1: whenever two or more encryption enable-flags are set,
`CreateEncryptionKeySource` behaves identically — same returned value,
same side-effect trace — to the configuration in which only the
highest-priority flag remains set (Widevine, then fixed key, then
PlayReady); the lower-priority flags are silently ignored. -/
theorem c1_priority_order (env : Env) (f : Flags)
    (h : twoOrMoreEncFlags f = true) :
    CreateEncryptionKeySource env f =
      CreateEncryptionKeySource env (keepHighestEncFlag f) := by
  unfold twoOrMoreEncFlags at h
  unfold keepHighestEncFlag
  cases hw : f.enable_widevine_encryption <;>
    cases hx : f.enable_fixed_key_encryption <;>
      cases hp : f.enable_playready_encryption <;>
        simp_all [CreateEncryptionKeySource, widevineWithSigner, CreateSigner]

/-- Configuration for the C1 witness: fixed-key and PlayReady encryption
enabled together; the fixed-key flag has priority. -/
def flagsC1 : Flags :=
  { flags0 with enable_fixed_key_encryption := true,
                enable_playready_encryption := true,
                key_id := "1234", key := "abcd" }

/-- C1 witness: with both lower-priority flags set the selector's full
result equals the one with only the fixed-key flag set. -/
theorem c1_priority_order_witness :
    twoOrMoreEncFlags flagsC1 = true ∧
    CreateEncryptionKeySource env0 flagsC1 =
      CreateEncryptionKeySource env0 (keepHighestEncFlag flagsC1) :=
  ⟨by decide, c1_priority_order env0 flagsC1 (by decide)⟩

/-- When the signer name is empty, or `CreateSigner` succeeds, the
Widevine prologue yields a source together with a trace that has no
fetch call and no error log. -/
theorem widevineWithSigner_some_of (env : Env) (f : Flags)
    (hsig : f.signer.isEmpty = true ∨ (CreateSigner env f).1.isSome = true) :
    ∃ ws e, widevineWithSigner env f = (some ws, e) ∧
      e.widevineFetches = [] ∧ e.logs = [] := by
  have htr := widevineWithSigner_trace env f
  cases hq : widevineWithSigner env f with
  | mk a e =>
    cases a with
    | some ws =>
      rw [hq] at htr
      exact ⟨ws, e, rfl, htr.1, htr.2.2 (by simp)⟩
    | none =>
      exfalso
      unfold widevineWithSigner at hq
      cases hse : f.signer.isEmpty with
      | true => rw [hse] at hq; simp at hq
      | false =>
        rw [hse] at hq
        simp only [Bool.not_false, if_true] at hq
        rcases hsig with h | h
        · rw [h] at hse; cases hse
        · cases hc : CreateSigner env f with
          | mk a e2 =>
            rw [hc] at hq h
            cases a
            · simp at h
            · simp at hq

/-- C3: on the Widevine encryption path (reached with an empty signer
name or a successful signer construction), a content id that is not
valid hexadecimal makes `CreateEncryptionKeySource` return null, log the
invalid-content-id error, and perform zero key-fetch calls. -/
theorem c3_invalid_content_id_no_fetch (env : Env) (f : Flags)
    (hw : f.enable_widevine_encryption = true)
    (hsig : f.signer.isEmpty = true ∨ (CreateSigner env f).1.isSome = true)
    (hhex : HexStringToBytes f.content_id = none) :
    (CreateEncryptionKeySource env f).1 = none ∧
    LogMsg.invalidContentIdHex ∈ (CreateEncryptionKeySource env f).2.logs ∧
    (CreateEncryptionKeySource env f).2.widevineFetches = [] := by
  obtain ⟨ws, e, hwse, hfe, hle⟩ := widevineWithSigner_some_of env f hsig
  unfold CreateEncryptionKeySource
  simp [hw, hwse, hhex, Effects.app, hfe, hle]

/-- Configuration for the C3 witness: the spec's example content id
`not-hex!` on the Widevine encryption path. -/
def flagsC3 : Flags :=
  { flags0 with enable_widevine_encryption := true,
                key_server_url := "https://license.example.com",
                content_id := "not-hex!" }

/-- C3 witness: with content id `not-hex!` the selector returns null,
logs the invalid-content-id error and performs no fetch. -/
theorem c3_invalid_content_id_no_fetch_witness :
    flagsC3.enable_widevine_encryption = true ∧
    flagsC3.signer.isEmpty = true ∧
    HexStringToBytes flagsC3.content_id = none ∧
    ((CreateEncryptionKeySource env0 flagsC3).1 = none ∧
     LogMsg.invalidContentIdHex ∈ (CreateEncryptionKeySource env0 flagsC3).2.logs ∧
     (CreateEncryptionKeySource env0 flagsC3).2.widevineFetches = []) :=
  ⟨by decide, by decide, by decide,
   c3_invalid_content_id_no_fetch env0 flagsC3 (by decide) (Or.inl (by decide)) (by decide)⟩

/-- C4: on the Widevine encryption path with a content id that decodes
to `cid`, the selector performs exactly one key-fetch call, with `cid`
and the configured policy; when the fetch reports success the Widevine
source is returned, and when it reports failure the selector returns
null and logs the fetch-failure error carrying that status. -/
theorem c4_fetch_exactly_once (env : Env) (f : Flags) (cid : List Nat)
    (hw : f.enable_widevine_encryption = true)
    (hsig : f.signer.isEmpty = true ∨ (CreateSigner env f).1.isSome = true)
    (hhex : HexStringToBytes f.content_id = some cid) :
    ∃ ws : WidevineSource,
      (CreateEncryptionKeySource env f).2.widevineFetches = [(ws, cid, f.policy)] ∧
      ((env.fetchKeys ws cid f.policy).isOk = true →
        (CreateEncryptionKeySource env f).1 = some (KeySource.widevine ws)) ∧
      ((env.fetchKeys ws cid f.policy).isOk = false →
        (CreateEncryptionKeySource env f).1 = none ∧
        LogMsg.widevineFetchFailed (env.fetchKeys ws cid f.policy) ∈
          (CreateEncryptionKeySource env f).2.logs) := by
  obtain ⟨ws, e, hwse, hfe, hle⟩ := widevineWithSigner_some_of env f hsig
  refine ⟨ws, ?_⟩
  unfold CreateEncryptionKeySource
  cases hok : (env.fetchKeys ws cid f.policy).isOk <;>
    simp [hw, hwse, hhex, hok, Effects.app, hfe, hle]

/-- Configuration for the C4 witness: content id `ab` (decoding to the
single byte 171) and policy `policy1` on the Widevine encryption path. -/
def flagsC4 : Flags :=
  { flags0 with enable_widevine_encryption := true,
                key_server_url := "https://license.example.com",
                content_id := "ab", policy := "policy1" }

/-- C4 witness: with a succeeding fetch environment, the selector fetches
once with byte 171 and policy `policy1` and returns the source. -/
theorem c4_fetch_exactly_once_witness :
    flagsC4.enable_widevine_encryption = true ∧
    HexStringToBytes flagsC4.content_id = some [171] ∧
    (∃ ws : WidevineSource,
      (CreateEncryptionKeySource env0 flagsC4).2.widevineFetches =
        [(ws, [171], flagsC4.policy)] ∧
      ((env0.fetchKeys ws [171] flagsC4.policy).isOk = true →
        (CreateEncryptionKeySource env0 flagsC4).1 = some (KeySource.widevine ws)) ∧
      ((env0.fetchKeys ws [171] flagsC4.policy).isOk = false →
        (CreateEncryptionKeySource env0 flagsC4).1 = none ∧
        LogMsg.widevineFetchFailed (env0.fetchKeys ws [171] flagsC4.policy) ∈
          (CreateEncryptionKeySource env0 flagsC4).2.logs)) :=
  ⟨by decide, by decide,
   c4_fetch_exactly_once env0 flagsC4 [171] (by decide) (Or.inl (by decide)) (by decide)⟩

/-- C9: at the public interface an error is indistinguishable from
"protection not requested": whenever any of the three functions logs an
error its returned pointer is null, which equals the pointer returned on
any nothing-configured run (in any environment); error information lives
only in the log. -/
theorem c9_error_indistinguishable_from_none (env env2 : Env) (f f2 : Flags) :
    ((CreateSigner env f).2.logs ≠ [] →
      (CreateSigner env f).1 = none ∧
      (f2.aes_signing_key.isEmpty = true → f2.rsa_signing_key_path.isEmpty = true →
        (CreateSigner env f).1 = (CreateSigner env2 f2).1)) ∧
    ((CreateEncryptionKeySource env f).2.logs ≠ [] → noEncFlags f2 = true →
      (CreateEncryptionKeySource env f).1 = none ∧
      (CreateEncryptionKeySource env f).1 = (CreateEncryptionKeySource env2 f2).1) ∧
    ((CreateDecryptionKeySource env f).2.logs ≠ [] → noDecFlags f2 = true →
      (CreateDecryptionKeySource env f).1 = none ∧
      (CreateDecryptionKeySource env f).1 = (CreateDecryptionKeySource env2 f2).1) := by
  refine ⟨?_, ?_, ?_⟩
  · intro h
    have h1 : (CreateSigner env f).1 = none :=
      (createSigner_none_or_quiet env f).resolve_right h
    refine ⟨h1, fun ha hr => ?_⟩
    have h2 : CreateSigner env2 f2 = (none, Effects.nil) := by
      unfold CreateSigner
      simp [ha, hr]
    rw [h1, h2]
  · intro h hn
    have h1 : (CreateEncryptionKeySource env f).1 = none :=
      (enc_none_or_quiet env f).resolve_right h
    rw [h1, enc_noflags env2 f2 hn]
    exact ⟨rfl, rfl⟩
  · intro h hn
    have h1 : (CreateDecryptionKeySource env f).1 = none :=
      (dec_none_or_quiet env f).resolve_right h
    rw [h1, dec_noflags env2 f2 hn]
    exact ⟨rfl, rfl⟩

/-- An environment in which every collaborator fails: signer
constructions return null, the file read fails, fetches report errors. -/
def envFail : Env :=
  ⟨fun _ _ _ => none, fun _ => none, fun _ _ => none,
   fun _ _ _ => Status.error 1 "fetch failed",
   fun _ _ _ _ => none, fun _ _ => none, fun _ _ => false⟩

/-- Configuration for the C9 witness: AES signing configured (the AES
construction fails in `envFail`) and Widevine encryption and decryption
enabled, so all three functions fail with a log. -/
def flagsC9 : Flags :=
  { flags0 with signer := "widevine_test", aes_signing_key := "6F6F",
                aes_signing_iv := "AAAA",
                enable_widevine_encryption := true,
                enable_widevine_decryption := true,
                content_id := "ab" }

/-- C9 witness: on a failing configuration each function's returned
pointer is null and equals the pointer of the all-defaults run. -/
theorem c9_error_indistinguishable_from_none_witness :
    (CreateSigner envFail flagsC9).2.logs ≠ [] ∧
    (CreateEncryptionKeySource envFail flagsC9).2.logs ≠ [] ∧
    (CreateDecryptionKeySource envFail flagsC9).2.logs ≠ [] ∧
    noEncFlags flags0 = true ∧ noDecFlags flags0 = true ∧
    ((CreateSigner envFail flagsC9).1 = none ∧
      (CreateSigner envFail flagsC9).1 = (CreateSigner env0 flags0).1) ∧
    ((CreateEncryptionKeySource envFail flagsC9).1 = none ∧
      (CreateEncryptionKeySource envFail flagsC9).1 =
        (CreateEncryptionKeySource env0 flags0).1) ∧
    ((CreateDecryptionKeySource envFail flagsC9).1 = none ∧
      (CreateDecryptionKeySource envFail flagsC9).1 =
        (CreateDecryptionKeySource env0 flags0).1) :=
  ⟨by decide, by decide, by decide, by decide, by decide,
   ⟨((c9_error_indistinguishable_from_none envFail env0 flagsC9 flags0).1
      (by decide)).1,
    ((c9_error_indistinguishable_from_none envFail env0 flagsC9 flags0).1
      (by decide)).2 (by decide) (by decide)⟩,
   (c9_error_indistinguishable_from_none envFail env0 flagsC9 flags0).2.1
     (by decide) (by decide),
   (c9_error_indistinguishable_from_none envFail env0 flagsC9 flags0).2.2
     (by decide) (by decide)⟩

/-- Configuration for C2: PlayReady encryption enabled, no static key
pair, a service URL and a program identifier configured. -/
def flagsC2 : Flags :=
  { flags0 with enable_playready_encryption := true,
                playready_server_url := "https://playready.example.com",
                program_identifier := "program1" }

/-- C2 counterexample: in an environment whose program-identifier fetch
reports failure, `CreateEncryptionKeySource` on the PlayReady
service-URL path still performs the fetch (its ignored success flag is
recorded as `false`), returns the PlayReady source, and logs no error —
so a fetch failure neither aborts construction nor is reported. -/
theorem c2_counterexample_fetch_failure_ignored :
    envFail.playreadyFetchStatus
        ⟨"https://playready.example.com", none, none⟩ "program1" = false ∧
    (CreateEncryptionKeySource envFail flagsC2).2.playreadyFetches =
      [("program1", false)] ∧
    (CreateEncryptionKeySource envFail flagsC2).1 =
      some (KeySource.playready ⟨"https://playready.example.com", none, none⟩) ∧
    (CreateEncryptionKeySource envFail flagsC2).2.logs = [] := by decide

/-- C2 amended: on the PlayReady path with no static key pair but a
service URL and program identifier configured, the identifier-based
key-fetch is invoked exactly once and its result is ignored: the source
is returned and no error is reported, whether the fetch succeeds or
fails. -/
theorem c2_amended_fetch_result_ignored (env : Env) (f : Flags)
    (hw : f.enable_widevine_encryption = false)
    (hx : f.enable_fixed_key_encryption = false)
    (hp : f.enable_playready_encryption = true)
    (hna : (!f.playready_key_id.isEmpty && !f.playready_key.isEmpty) = false)
    (hu : f.playready_server_url.isEmpty = false)
    (hpid : f.program_identifier.isEmpty = false) :
    ∃ p : PlayReadySource,
      (CreateEncryptionKeySource env f).1 = some (KeySource.playready p) ∧
      (CreateEncryptionKeySource env f).2.playreadyFetches =
        [(f.program_identifier, env.playreadyFetchStatus p f.program_identifier)] ∧
      (CreateEncryptionKeySource env f).2.logs = [] := by
  unfold CreateEncryptionKeySource
  simp only [hw, hx, hp, hna, hu, hpid, Bool.not_false, Bool.and_self,
    Bool.false_eq_true, if_false, if_true]
  exact ⟨_, rfl, rfl, trivial⟩

/-- C2 amended witness: on the concrete C2 configuration, in the
all-failing environment, the source is returned with one recorded fetch
and no log. -/
theorem c2_amended_fetch_result_ignored_witness :
    flagsC2.enable_playready_encryption = true ∧
    flagsC2.playready_server_url.isEmpty = false ∧
    flagsC2.program_identifier.isEmpty = false ∧
    (∃ p : PlayReadySource,
      (CreateEncryptionKeySource envFail flagsC2).1 = some (KeySource.playready p) ∧
      (CreateEncryptionKeySource envFail flagsC2).2.playreadyFetches =
        [(flagsC2.program_identifier,
          envFail.playreadyFetchStatus p flagsC2.program_identifier)] ∧
      (CreateEncryptionKeySource envFail flagsC2).2.logs = []) :=
  ⟨by decide, by decide, by decide,
   c2_amended_fetch_result_ignored envFail flagsC2
     (by decide) (by decide) (by decide) (by decide) (by decide) (by decide)⟩

end PackagerUtil
